import Mathlib

/-!
Verification of `voice_server.py`: a websocket voice-transcription service.

The server (`transcribe_handler`) owns one websocket connection.  It iterates
over inbound binary audio chunks (`async for audio_chunk in websocket`); for
each chunk it wraps the bytes in `sr.AudioData`, calls
`recognizer.recognize_google`, and on success sends
`json.dumps({"transcript": text})` back on the same connection.  The inner
`try` absorbs exactly `sr.UnknownValueError` and `sr.RequestError`; the outer
`try` absorbs exactly `websockets.exceptions.ConnectionClosed`.

We embed the handler as a function over the sequence of inbound chunks.
Each chunk is abstracted by the outcome of its recognition call and by the
behaviour of the subsequent `websocket.send` (which can raise
`ConnectionClosed` when the peer is gone).  The stream ends either normally
(the peer sent a clean close frame, so the `async for` just finishes) or by
the iterator raising `ConnectionClosed`.
-/

namespace VoiceServer

/-- A minimal JSON value type, enough to state the shape of the outbound
message built by `json.dumps({"transcript": text})`. -/
inductive JValue where
  | str (s : String)
  | obj (fields : List (String × JValue))

/-- Outcome of `recognizer.recognize_google(audio_data)` on one chunk:
success with a transcript, `sr.UnknownValueError`, `sr.RequestError`, or any
other raised exception (e.g. a `TypeError` from feeding a text frame into the
PCM pipeline), which none of the `except` clauses match. -/
inductive RecOutcome where
  | ok (text : String)
  | unknownValue
  | requestError (msg : String)
  | otherError (msg : String)
  deriving DecidableEq, Repr

/-- Behaviour of `await websocket.send(...)` for a chunk whose recognition
succeeded: either the transport accepts the message, or the connection is
gone and `send` raises `ConnectionClosed`. -/
inductive SendBehavior where
  | delivered
  | connClosed
  deriving DecidableEq, Repr

/-- One inbound audio chunk, abstracted by how the recognition call and the
(possibly unreached) send behave on it. -/
structure Chunk where
  recog : RecOutcome
  send : SendBehavior
  deriving DecidableEq, Repr

/-- How the inbound iteration ends once all listed chunks are consumed:
the `async for` finishes normally (clean close frame), or it raises
`ConnectionClosed`. -/
inductive StreamEnd where
  | normalClose
  | closedError
  deriving DecidableEq, Repr

/-- How the handler coroutine terminates: returning normally (possibly via
the `except ConnectionClosed` branch), or with an uncaught exception
escaping `transcribe_handler`. -/
inductive SessionExit where
  | closedClean
  | uncaught (msg : String)
  deriving DecidableEq, Repr

/-- Observable result of one session: the messages written to the
connection, the `print` diagnostics emitted, and how the coroutine ended. -/
structure SessionResult where
  sent : List JValue
  log : List String
  exit : SessionExit

/-- `json.dumps({"transcript": text})`: a JSON object with the single key
`"transcript"` mapped to the transcript string. -/
def transcriptMessage (text : String) : JValue :=
  .obj [("transcript", .str text)]

def establishedMsg : String := "Connection established for voice transcription."

def recognizedMsg (text : String) : String := "Recognized: " ++ text

def unknownMsg : String := "Could not understand audio."

def apiErrorMsg (e : String) : String := "Google API Error: " ++ e

def closedMsg : String := "Connection for voice transcription closed."

/-- Result of the `async for` loop running out of chunks: on a normal close
the outer `try` body just finishes; on `ConnectionClosed` raised by the
iterator, the outer `except` prints the closed diagnostic.  Both paths
return cleanly. -/
def endResult : StreamEnd → SessionResult
  | .normalClose => ⟨[], [], .closedClean⟩
  | .closedError => ⟨[], [closedMsg], .closedClean⟩

/-- The per-chunk loop body of `transcribe_handler` (lines 13-23), iterated
over the inbound chunks.  On success the transcript is printed and sent; a
`ConnectionClosed` raised by `send` escapes the inner `try` and is caught by
the outer `except`, ending the session.  `UnknownValueError` and
`RequestError` are absorbed by the inner `except` clauses and the loop
continues.  Any other exception escapes both `try` blocks. -/
def sessionLoop : List Chunk → StreamEnd → SessionResult
  | [], e => endResult e
  | c :: cs, e =>
    match c.recog with
    | .ok t =>
      match c.send with
      | .delivered =>
        let r := sessionLoop cs e
        ⟨transcriptMessage t :: r.sent, recognizedMsg t :: r.log, r.exit⟩
      | .connClosed => ⟨[], [recognizedMsg t, closedMsg], .closedClean⟩
    | .unknownValue =>
      let r := sessionLoop cs e
      ⟨r.sent, unknownMsg :: r.log, r.exit⟩
    | .requestError m =>
      let r := sessionLoop cs e
      ⟨r.sent, apiErrorMsg m :: r.log, r.exit⟩
    | .otherError m => ⟨[], [], .uncaught m⟩

/-- `transcribe_handler` (lines 10-25): prints the connection-established
diagnostic, then runs the per-chunk loop. -/
def transcribe_handler (cs : List Chunk) (e : StreamEnd) : SessionResult :=
  let r := sessionLoop cs e
  ⟨r.sent, establishedMsg :: r.log, r.exit⟩

/-- A chunk on which the recognizer succeeds and the transport accepts the
reply. -/
def goodChunk (t : String) : Chunk := ⟨.ok t, .delivered⟩

/-- The recognition outcomes absorbed by the inner `except` clauses:
`sr.UnknownValueError` and `sr.RequestError`. -/
def recFailed : RecOutcome → Bool
  | .unknownValue => true
  | .requestError _ => true
  | _ => false

/-- The transcript extracted by a successful recognition call, if any. -/
def successText : RecOutcome → Option String
  | .ok t => some t
  | _ => none

/-- Messages the loop body writes to the connection for one chunk: one
transcript message when recognition succeeded and the transport accepted it,
nothing otherwise. -/
def chunkOutput (c : Chunk) : List JValue :=
  match c.recog, c.send with
  | .ok t, .delivered => [transcriptMessage t]
  | _, _ => []

/-- The prefix of the inbound chunks the loop actually processes before it
stops: everything up to and including the first chunk whose send raises
`ConnectionClosed` or whose recognition raises an unabsorbed exception. -/
def processedPrefix : List Chunk → List Chunk
  | [] => []
  | c :: cs =>
    match c.recog, c.send with
    | .ok _, .delivered => c :: processedPrefix cs
    | .ok _, .connClosed => [c]
    | .unknownValue, _ => c :: processedPrefix cs
    | .requestError _, _ => c :: processedPrefix cs
    | .otherError _, _ => [c]

/-- The messages sent over a whole session are exactly the per-chunk outputs
of the processed prefix, concatenated in arrival order. -/
lemma sessionLoop_sent_eq (cs : List Chunk) (e : StreamEnd) :
    (sessionLoop cs e).sent = (processedPrefix cs).flatMap chunkOutput := by
  induction cs with
  | nil => cases e <;> rfl
  | cons c cs ih =>
    rcases c with ⟨r, s⟩
    cases r <;> cases s <;>
      simp [sessionLoop, processedPrefix, chunkOutput, ih]

/-!
Shutdown model for `main` (lines 27-35).

`main` creates a future `stop` and registers `stop.set_result(None)` as the
SIGTERM handler (lines 30-31).  Inside `async with websockets.serve(...)` it
then awaits `asyncio.Future()` — a *fresh* future that nothing ever
resolves, not `stop` (line 35).  The listener stops accepting only when the
`async with` block is exited, i.e. only when that awaited future completes.
`Future.set_result` on an already-resolved future raises
`InvalidStateError`; an exception raised inside a callback run by the event
loop is routed to the loop's exception handler (logged) and leaves the
program state unchanged.
-/

/-- Process-wide state relevant to shutdown: whether the `stop` future of
line 30 is resolved, whether the fresh `asyncio.Future()` awaited on line 35
is resolved, and whether the `websockets.serve` listener is accepting. -/
structure MainState where
  stopDone : Bool
  runForeverDone : Bool
  accepting : Bool
  deriving DecidableEq, Repr

/-- State right after `websockets.serve` starts: nothing resolved, listener
accepting. -/
def initialMain : MainState := ⟨false, false, true⟩

/-- `Future.set_result` on a future in the given done-state: succeeds once,
raises `InvalidStateError` when the future is already done. -/
def futureSetResult (done : Bool) : Except String Bool :=
  if done then .error "InvalidStateError" else .ok true

/-- The registered SIGTERM callback `stop.set_result(None)` (line 31) as run
by the event loop: on success the `stop` future becomes done; a raised
`InvalidStateError` is passed to the loop's exception handler (logged) and
changes nothing. -/
def sigtermCallback (s : MainState) : MainState :=
  match futureSetResult s.stopDone with
  | .ok _ => { s with stopDone := true }
  | .error _ => s

/-- Whether the await on line 35 can complete and unblock `main`.  The code
awaits the fresh `asyncio.Future()`, not the `stop` future. -/
def mainUnblocked (s : MainState) : Bool := s.runForeverDone

/-- One step of the main control loop: the `async with websockets.serve`
block closes the listener exactly when the await in its body completes. -/
def mainStep (s : MainState) : MainState :=
  if mainUnblocked s then { s with accepting := false } else s

end VoiceServer

namespace VoiceServer

/-!
Event-loop scheduling model (for the cross-session independence property).

`websockets.serve` creates one asyncio task per accepted connection, all on
one event loop.  Asyncio tasks are cooperatively scheduled: control moves
between tasks only at `await` points.  In `transcribe_handler` the awaits
are the `async for` receive and `websocket.send`; the
`recognizer.recognize_google(...)` call between them (line 17) is a plain
synchronous call, so from the moment it starts until it returns the event
loop cannot run any other task.  We model each session task by its phase
between scheduling points, a recognition call taking a number of atomic
steps (its duration), and record which tasks the loop may run next.
-/

/-- Phase of one session task relative to the event loop's switch points. -/
inductive TaskPhase where
  | atRecv
  | computing (remaining : Nat) (text : String)
  | atSend (text : String)
  | finished
  deriving DecidableEq, Repr

/-- Whether a task is inside the synchronous `recognize_google` call. -/
def isComputing : TaskPhase → Bool
  | .computing _ _ => true
  | _ => false

/-- One session task: its phase, the inbound chunks queued on its
connection (recognition duration in atomic steps, transcript), and the
transcripts already delivered on its connection. -/
structure SessionTask where
  phase : TaskPhase
  pending : List (Nat × String)
  sent : List String
  deriving DecidableEq, Repr

/-- The event loop's state: the session tasks it owns. -/
structure LoopState where
  tasks : List SessionTask
  deriving DecidableEq, Repr

/-- Whether a task has something to do at its current phase. -/
def runnable (t : SessionTask) : Bool :=
  match t.phase with
  | .atRecv => !t.pending.isEmpty
  | .computing _ _ => true
  | .atSend _ => true
  | .finished => false

/-- Whether the event loop can run task `i` next: the task must be runnable
and, because synchronous code never yields, no *other* task may be inside
its recognition call. -/
def enabled (s : LoopState) (i : Nat) : Bool :=
  match s.tasks.get? i with
  | none => false
  | some t =>
    runnable t &&
      (s.tasks.all (fun u => !isComputing u.phase) || isComputing t.phase)

/-- One atomic step of a single task: pick up the next chunk and enter the
recognition call, make progress inside the call, finish the call and move
to the send, or complete the send and deliver the transcript. -/
def taskStep (t : SessionTask) : SessionTask :=
  match t.phase, t.pending with
  | .atRecv, (d, tr) :: rest =>
    { t with phase := .computing d tr, pending := rest }
  | .atRecv, [] => t
  | .computing (n + 1) tr, _ => { t with phase := .computing n tr }
  | .computing 0 tr, _ => { t with phase := .atSend tr }
  | .atSend tr, _ => { t with phase := .atRecv, sent := t.sent ++ [tr] }
  | .finished, _ => t

/-- Replace the `i`-th task by its successor. -/
def updateAt : List SessionTask → Nat → List SessionTask
  | [], _ => []
  | t :: ts, 0 => taskStep t :: ts
  | t :: ts, n + 1 => t :: updateAt ts n

/-- The event loop runs task `i` for one atomic step, when it is enabled. -/
def loopStep (s : LoopState) (i : Nat) : LoopState :=
  if enabled s i then ⟨updateAt s.tasks i⟩ else s

/-- Two concurrently open sessions: session 0 is about to receive a chunk
whose recognition call takes 5 atomic steps; session 1 has a quick chunk
queued on its own connection. -/
def twoSessionsStart : LoopState :=
  ⟨[⟨.atRecv, [(5, "slow")], []⟩, ⟨.atRecv, [(1, "quick")], []⟩]⟩

/-- The state after the loop runs session 0, which enters its synchronous
recognition call. -/
def twoSessionsBlocked : LoopState := loopStep twoSessionsStart 0

end VoiceServer

namespace VoiceServer

/-- C1: on a stream of N chunks that are all recognized successfully (and a
healthy transport), the handler sends exactly N transcript messages, one per
chunk, in arrival order. -/
theorem all_success_sends_all_in_order (ts : List String) (e : StreamEnd) :
    (transcribe_handler (ts.map goodChunk) e).sent = ts.map transcriptMessage := by
  unfold transcribe_handler
  induction ts with
  | nil => cases e <;> rfl
  | cons t ts ih => simpa [sessionLoop, goodChunk] using ih

/-- C4 (divergence demonstration): delivering SIGTERM while the server is
accepting does resolve the `stop` future, but `main` awaits a fresh
`asyncio.Future()` that nothing ever resolves — not `stop` — so the main
control loop is never unblocked and the listener keeps accepting new
connections forever afterwards. -/
theorem sigterm_leaves_listener_accepting :
    (sigtermCallback initialMain).stopDone = true ∧
      mainUnblocked (sigtermCallback initialMain) = false ∧
      ∀ n : Nat,
        (mainStep^[n] (sigtermCallback initialMain)).accepting = true := by
  refine ⟨rfl, rfl, fun n => ?_⟩
  have hfix : mainStep (sigtermCallback initialMain) = sigtermCallback initialMain :=
    rfl
  rw [Function.iterate_fixed hfix n]
  rfl

/-- C6: running the registered SIGTERM callback a second time has no
additional effect on the process state: the second `stop.set_result(None)`
raises `InvalidStateError`, which the event loop absorbs (logs), leaving
the shutdown state and everything else unchanged — the callback is
idempotent. -/
theorem sigterm_callback_idempotent (s : MainState) :
    sigtermCallback (sigtermCallback s) = sigtermCallback s ∧
      futureSetResult (sigtermCallback s).stopDone =
        Except.error "InvalidStateError" := by
  rcases s with ⟨sd, rf, a⟩
  cases sd <;> simp [sigtermCallback, futureSetResult]

/-- C9 (divergence demonstration): with two concurrently open sessions,
session 1 is schedulable while session 0 sits at an await point; but once
session 0 enters its synchronous `recognize_google` call, session 1 —
although it has a chunk queued on its own connection — cannot be scheduled,
and after five atomic steps of session 0's recognition call session 1 still
has not run and has delivered nothing. -/
theorem stalled_recognition_blocks_other_session :
    enabled twoSessionsStart 1 = true ∧
      twoSessionsBlocked.tasks =
        [⟨.computing 5 "slow", [], []⟩, ⟨.atRecv, [(1, "quick")], []⟩] ∧
      enabled twoSessionsBlocked 0 = true ∧
      enabled twoSessionsBlocked 1 = false ∧
      enabled ((fun s => loopStep s 0)^[3] twoSessionsBlocked) 1 = false ∧
      ((fun s => loopStep s 0)^[5] twoSessionsBlocked).tasks =
        [⟨.computing 0 "slow", [], []⟩, ⟨.atRecv, [(1, "quick")], []⟩] := by
  decide

/-- C2: on a stream mixing successfully recognized chunks with chunks on
which recognition fails (either `UnknownValueError` or `RequestError`), the
handler sends transcript messages exactly for the recognized chunks, in
their original relative order, and no message at all for the failed ones. -/
theorem mixed_stream_sends_only_successes (cs : List Chunk) (e : StreamEnd)
    (h : ∀ c ∈ cs,
      recFailed c.recog = true ∨
        ((successText c.recog).isSome = true ∧ c.send = .delivered)) :
    (transcribe_handler cs e).sent =
      cs.filterMap (fun c => (successText c.recog).map transcriptMessage) := by
  unfold transcribe_handler
  induction cs with
  | nil => cases e <;> rfl
  | cons c cs ih =>
    have hc := h c (List.mem_cons_self c cs)
    have hrest : ∀ c' ∈ cs,
        recFailed c'.recog = true ∨
          ((successText c'.recog).isSome = true ∧ c'.send = .delivered) :=
      fun c' hc' => h c' (List.mem_cons_of_mem c hc')
    rcases c with ⟨r, s⟩
    cases r with
    | ok t =>
      rcases hc with hfail | ⟨_, hsend⟩
      · simp [recFailed] at hfail
      · cases hsend
        simpa [sessionLoop, successText] using ih hrest
    | unknownValue => simpa [sessionLoop, successText] using ih hrest
    | requestError m => simpa [sessionLoop, successText] using ih hrest
    | otherError m =>
      rcases hc with hfail | ⟨hsome, _⟩
      · simp [recFailed] at hfail
      · simp [successText] at hsome

/-- Witness for C2, the worked example from the specification: chunks
recognized as "hello", then silence (`UnknownValueError`), then "world"
yield exactly the two messages for "hello" and "world", in that order. -/
theorem mixed_stream_sends_only_successes_spec_example :
    (transcribe_handler
        [goodChunk "hello", ⟨.unknownValue, .delivered⟩, goodChunk "world"]
        .normalClose).sent =
      [transcriptMessage "hello", transcriptMessage "world"] := by
  have := mixed_stream_sends_only_successes
    [goodChunk "hello", ⟨.unknownValue, .delivered⟩, goodChunk "world"]
    .normalClose (by decide)
  simpa [goodChunk, successText] using this

/-- C3: a chunk whose recognition fails with either absorbed failure kind
does not terminate the session: the remaining chunks are processed exactly
as they would be without it (same messages, same exit), the failure only
adding one diagnostic line.  Only the transport-level events already in the
loop end the session. -/
theorem recognition_failure_continues (c : Chunk) (cs : List Chunk)
    (e : StreamEnd) (h : recFailed c.recog = true) :
    ∃ d : String,
      sessionLoop (c :: cs) e =
        ⟨(sessionLoop cs e).sent, d :: (sessionLoop cs e).log,
          (sessionLoop cs e).exit⟩ := by
  rcases c with ⟨r, s⟩
  cases r with
  | ok t => simp [recFailed] at h
  | unknownValue => exact ⟨unknownMsg, rfl⟩
  | requestError m => exact ⟨apiErrorMsg m, rfl⟩
  | otherError m => simp [recFailed] at h

/-- Witness for C3: a `RequestError` chunk in front of a recognized chunk
leaves that chunk's processing unchanged. -/
theorem recognition_failure_continues_witness :
    ∃ d : String,
      sessionLoop [⟨.requestError "quota", .delivered⟩, goodChunk "hi"]
          .normalClose =
        ⟨(sessionLoop [goodChunk "hi"] .normalClose).sent,
          d :: (sessionLoop [goodChunk "hi"] .normalClose).log,
          (sessionLoop [goodChunk "hi"] .normalClose).exit⟩ :=
  recognition_failure_continues ⟨.requestError "quota", .delivered⟩
    [goodChunk "hi"] .normalClose rfl

/-- C5: when `websocket.send` raises `ConnectionClosed` (peer gone) on a
successfully recognized chunk, the session ends immediately — no message is
recorded, no later chunk is processed — through the same clean
`except ConnectionClosed` path as a connection close, and the exception is
not propagated further. -/
theorem send_failure_ends_session_cleanly (t : String) (cs : List Chunk)
    (e : StreamEnd) :
    sessionLoop (⟨.ok t, .connClosed⟩ :: cs) e =
        ⟨[], [recognizedMsg t, closedMsg], .closedClean⟩ ∧
      (sessionLoop (⟨.ok t, .connClosed⟩ :: cs) e).exit =
        (endResult .closedError).exit :=
  ⟨rfl, rfl⟩

/-- C7: across every iteration of the session loop, the messages sent are
exactly the per-chunk outputs of the processed chunks, and each chunk
contributes at most one message, only when its recognition succeeded. -/
theorem at_most_one_output_per_chunk (cs : List Chunk) (e : StreamEnd) :
    (sessionLoop cs e).sent = (processedPrefix cs).flatMap chunkOutput ∧
      ∀ c : Chunk, (chunkOutput c).length ≤ 1 ∧
        (successText c.recog = none → chunkOutput c = []) := by
  refine ⟨sessionLoop_sent_eq cs e, fun c => ?_⟩
  rcases c with ⟨r, s⟩
  cases r <;> cases s <;> simp [chunkOutput, successText]

/-- Witness for C7 at a concrete session: an unrecognized chunk contributes
no message, and the session of one failed and one recognized chunk sends
exactly one message. -/
theorem at_most_one_output_per_chunk_witness :
    (sessionLoop [⟨.unknownValue, .delivered⟩, goodChunk "hi"] .normalClose).sent
        = (processedPrefix [⟨.unknownValue, .delivered⟩, goodChunk "hi"]).flatMap
            chunkOutput ∧
      chunkOutput ⟨.unknownValue, .delivered⟩ = [] := by
  have h := at_most_one_output_per_chunk
    [⟨.unknownValue, .delivered⟩, goodChunk "hi"] .normalClose
  exact ⟨h.1, (h.2 ⟨.unknownValue, .delivered⟩).2 rfl⟩

/-- C8: every message the handler writes to the connection is the JSON
object with the single key "transcript" whose value is the transcript of a
successfully recognized chunk of the session. -/
theorem outbound_message_shape (cs : List Chunk) (e : StreamEnd) (m : JValue)
    (h : m ∈ (transcribe_handler cs e).sent) :
    ∃ t : String, m = JValue.obj [("transcript", JValue.str t)] ∧
      ∃ c ∈ cs, c.recog = RecOutcome.ok t := by
  unfold transcribe_handler at h
  induction cs with
  | nil => cases e <;> simp [sessionLoop, endResult] at h
  | cons c cs ih =>
    rcases c with ⟨r, s⟩
    cases r with
    | ok t =>
      cases s with
      | delivered =>
        simp only [sessionLoop, List.mem_cons] at h
        rcases h with h | h
        · exact ⟨t, h, ⟨⟨.ok t, .delivered⟩, List.mem_cons_self _ _, rfl⟩⟩
        · rcases ih h with ⟨t', hm, c', hc', hr⟩
          exact ⟨t', hm, c', List.mem_cons_of_mem _ hc', hr⟩
      | connClosed => simp [sessionLoop] at h
    | unknownValue =>
      rcases ih (by simpa [sessionLoop] using h) with ⟨t', hm, c', hc', hr⟩
      exact ⟨t', hm, c', List.mem_cons_of_mem _ hc', hr⟩
    | requestError m' =>
      rcases ih (by simpa [sessionLoop] using h) with ⟨t', hm, c', hc', hr⟩
      exact ⟨t', hm, c', List.mem_cons_of_mem _ hc', hr⟩
    | otherError m' => simp [sessionLoop] at h

/-- Witness for C8: the one message of a one-chunk session recognized as
"hi" has exactly the single-key transcript shape. -/
theorem outbound_message_shape_witness :
    ∃ t : String,
      transcriptMessage "hi" = JValue.obj [("transcript", JValue.str t)] ∧
        ∃ c ∈ [goodChunk "hi"], c.recog = RecOutcome.ok t :=
  outbound_message_shape [goodChunk "hi"] .normalClose (transcriptMessage "hi")
    (by simp [transcribe_handler, sessionLoop, goodChunk])

/-- C10: the handler absorbs only the two recognition failure kinds and
`ConnectionClosed`; a chunk whose processing raises any other exception
(for example a text frame breaking the PCM pipeline) makes that exception
escape `transcribe_handler`: the session stops at that chunk, sends nothing
for it, and does not take the clean connection-closed exit. -/
theorem unabsorbed_exception_escapes (c : Chunk) (cs : List Chunk)
    (e : StreamEnd) (m : String) (h : c.recog = RecOutcome.otherError m) :
    transcribe_handler (c :: cs) e = ⟨[], [establishedMsg], .uncaught m⟩ ∧
      (transcribe_handler (c :: cs) e).exit ≠ SessionExit.closedClean := by
  rcases c with ⟨r, s⟩
  cases h
  exact ⟨rfl, by simp [transcribe_handler, sessionLoop]⟩

/-- Witness for C10: a chunk raising a `TypeError` (e.g. a text frame)
terminates the session with the exception escaping uncaught, even with more
chunks pending. -/
theorem unabsorbed_exception_escapes_witness :
    transcribe_handler [⟨.otherError "TypeError", .delivered⟩, goodChunk "hi"]
          .normalClose =
        ⟨[], [establishedMsg], .uncaught "TypeError"⟩ ∧
      (transcribe_handler [⟨.otherError "TypeError", .delivered⟩, goodChunk "hi"]
          .normalClose).exit ≠ SessionExit.closedClean :=
  unabsorbed_exception_escapes ⟨.otherError "TypeError", .delivered⟩
    [goodChunk "hi"] .normalClose "TypeError" rfl

end VoiceServer
